import Mathlib

/-!
Shallow embedding of the `esignbase_sdk` Python client library
(`src/esignbase_sdk/__init__.py`) and verification of its specification.

The HTTP transport (`requests`) is abstracted by an explicit oracle
(`Env`): each HTTP attempt receives the response the oracle supplies, and
the embedding records how many resource HTTP attempts and how many
`connect` invocations a call performs.  Python's in-place mutation of
`client.access_token` is modelled by explicit state passing: functions
return the updated `OAuth2Client`.  Python truthiness of optional strings
(`None` and `""` are falsy) is modelled by `truthyOptStr`.
-/

set_option autoImplicit false

namespace ESignBase

/-- Grant types, mirroring the `GrantType` `StrEnum` of the source. -/
inductive GrantType where
  | client_credentials
  | authorization_code
  deriving DecidableEq

/-- String value of a grant type, as the Python `StrEnum` renders it. -/
def GrantType.value : GrantType → String
  | .client_credentials => "client_credentials"
  | .authorization_code => "authorization_code"

/-- Scopes, mirroring the `Scope` `StrEnum` of the source. -/
inductive Scope where
  | all
  | read
  | create_document
  | delete
  | sandbox
  deriving DecidableEq

/-- String value of a scope, as the Python `StrEnum` renders it. -/
def Scope.value : Scope → String
  | .all => "all"
  | .read => "read"
  | .create_document => "create_document"
  | .delete => "delete"
  | .sandbox => "sandbox"

/-- Python truthiness for an optional string: `None` and `""` are falsy. -/
def truthyOptStr : Option String → Bool
  | none => false
  | some s => !s.isEmpty

/-- Rendering of an optional string inside a Python f-string
(`None` prints as the text "None"). -/
def pyOptStr : Option String → String
  | none => "None"
  | some s => s

/-- The `OAuth2Client` dataclass of the source. -/
structure OAuth2Client where
  id : String
  secret : String
  grant_type : GrantType
  user_name : Option String
  password : Option String
  access_token : Option String
  scope : List Scope
  deriving DecidableEq

/-- Property `is_connected` of `OAuth2Client`: true when an access token
exists, i.e. Python `bool(self.access_token)`. -/
def OAuth2Client.is_connected (c : OAuth2Client) : Bool :=
  truthyOptStr c.access_token

/-- The `Recipient` dataclass of the source. -/
structure Recipient where
  email : String
  first_name : String
  last_name : String
  role_name : String
  locale : String
  deriving DecidableEq

/-- The `ESignBaseSDKError` exception of the source: a message together
with an optional status code (defaulting to `None` in the source). -/
structure ESignBaseSDKError where
  message : String
  status_code : Option Nat
  deriving DecidableEq

/-- Build an `ESignBaseSDKError` with no status code, as the source's
`ESignBaseSDKError(message)` constructor call does. -/
def sdkError (msg : String) : ESignBaseSDKError := ⟨msg, none⟩

/-- Minimal model of the JSON values the service exchanges. -/
inductive Json where
  | null
  | bool (b : Bool)
  | num (n : Int)
  | str (s : String)
  | arr (elems : List Json)
  | obj (fields : List (String × Json))

/-- Python `dict.get(key)` on a JSON object: first binding of the key,
`None` when absent or when the value is not an object. -/
def Json.get : Json → String → Option Json
  | .obj fields, key => fields.lookup key
  | _, _ => none

/-- Extraction of a string-valued JSON field, modelling what
`response.json().get(key)` stores into an optional-string slot for the
shapes the service uses (a string value, or an absent field giving
`None`). -/
def jsonGetStr (j : Json) (key : String) : Option String :=
  match j.get key with
  | some (.str s) => some s
  | _ => none

/-- An HTTP response as seen through the `requests` library: status code,
body text, decoded JSON body, and the byte chunks `iter_content` yields
for streamed responses (chunks modelled as strings of bytes). -/
structure Response where
  status_code : Nat
  text : String
  json : Json
  content_chunks : List String

/-- Property `ok` of a `requests` response: true when the status code is
below 400. -/
def Response.ok (r : Response) : Bool := r.status_code < 400

/-- The fixed base URL of the service. -/
def BASE_URL : String := "https://app.esignbase.com/"

/-- Validation of a client, mirroring `_validate`: checks run in source
order, each failure raising `ESignBaseSDKError` with the source's
message.  A pure check returning `Except`; it never touches the client. -/
def validate (client : OAuth2Client) : Except ESignBaseSDKError Unit :=
  if client.scope.isEmpty then
    .error (sdkError "At least one scope must be provided")
  else if client.id.isEmpty then
    .error (sdkError "Client ID is required")
  else if client.secret.isEmpty then
    .error (sdkError "Client secret is required")
  else if client.grant_type = GrantType.authorization_code ∧
      (truthyOptStr client.user_name = false ∨ truthyOptStr client.password = false) then
    .error (sdkError "Username and password are required for authorization code grant type")
  else
    .ok ()

/-- Connectivity precondition, mirroring `_ensure_connected`: raises when
no access token is cached (the `not client` arm of the source's test is
vacuous, since a dataclass instance is always truthy in Python). -/
def ensure_connected (client : OAuth2Client) : Except ESignBaseSDKError Unit :=
  if client.is_connected = false then
    .error (sdkError "OAuth2Client is not connected. Call connect() first.")
  else
    .ok ()

/-- Form-encoded body `connect` posts to the token endpoint (source lines
building `auth_credentials` and the `data=` argument). -/
def connect_request_data (client : OAuth2Client) : String :=
  let auth_credentials :=
    if client.grant_type = GrantType.authorization_code then
      "username=" ++ pyOptStr client.user_name ++ "&password=" ++
        pyOptStr client.password ++ "&"
    else ""
  auth_credentials ++ "grant_type=" ++ client.grant_type.value ++ "&scope=" ++
    String.intercalate " " (client.scope.map Scope.value)

/-- The `connect` function.  The token endpoint's answer is supplied by
the oracle argument `tokenResp` (the source posts to `oauth2/token` and
reads `response`).  On a non-ok response it raises with the response body
text and status code, leaving the client untouched; on success it stores
the body's `access_token` field (absent field stores `None`). -/
def connect (tokenResp : Response) (client : OAuth2Client) :
    Except ESignBaseSDKError OAuth2Client :=
  match validate client with
  | .error e => .error e
  | .ok _ =>
    if client.grant_type = GrantType.authorization_code ∧
        (truthyOptStr client.user_name = false ∨ truthyOptStr client.password = false) then
      .error (sdkError "Username and password are required for authorization code grant type")
    else if tokenResp.ok = false then
      .error ⟨"Failed to connect to ESignBase API: " ++ tokenResp.text,
        some tokenResp.status_code⟩
    else
      .ok { client with access_token := jsonGetStr tokenResp.json "access_token" }

/-- Python dict assignment `d[k] = v` on an insertion-ordered association
list: overwrite in place when the key is present, append otherwise. -/
def assocSet {α : Type} (l : List (String × α)) (k : String) (v : α) :
    List (String × α) :=
  if (l.lookup k).isSome then
    l.map (fun p => if p.1 = k then (k, v) else p)
  else
    l ++ [(k, v)]

/-- Python `dict.setdefault(k, v)`: insert only when the key is absent. -/
def assocSetdefault {α : Type} (l : List (String × α)) (k : String) (v : α) :
    List (String × α) :=
  if (l.lookup k).isSome then l else l ++ [(k, v)]

/-- Python `path.lstrip('/')`. -/
def lstripSlashes (s : String) : String := s.dropWhile (fun c => c = '/')

/-- Oracle standing for the network: the token endpoint's response, and
the response each successive resource HTTP attempt receives (attempt 0 is
the first `requests.request` call of an executor invocation, attempt 1
the retried one). -/
structure Env where
  tokenResponse : Response
  resource : Nat → Response

/-- Observable outcome of one `_api_request` invocation: the returned
response (or the raised error), the client state afterwards, the URL
targeted, the number of resource HTTP attempts issued, the number of
`connect` invocations, and the `Authorization` header value sent on each
attempt in order. -/
structure ApiOutcome where
  result : Except ESignBaseSDKError Response
  client : OAuth2Client
  url : String
  httpAttempts : Nat
  connectCalls : Nat
  authHeaders : List String

/-- The authorized request executor `_api_request`.  It checks
connectivity first (raising before any HTTP attempt), injects a bearer
`Authorization` header only when the caller supplied none, issues the
call, and on a 401 (with `retry` set) invokes `connect` once — swallowing
any failure of that nested call — recomputes the header from whatever
token is then cached, reissues the call exactly once and returns that
second response whatever its status. -/
def api_request (env : Env) (client : OAuth2Client) (method path : String)
    (retry : Bool) (headers0 : List (String × String)) : ApiOutcome :=
  match ensure_connected client with
  | .error e => ⟨.error e, client, BASE_URL ++ lstripSlashes path, 0, 0, []⟩
  | .ok _ =>
    let headers := assocSetdefault headers0 "Authorization"
      ("Bearer " ++ pyOptStr client.access_token)
    let url := BASE_URL ++ lstripSlashes path
    let auth1 := ((headers.lookup "Authorization").getD "")
    let response := env.resource 0
    if response.status_code = 401 ∧ retry then
      let client1 :=
        match connect env.tokenResponse client with
        | .ok c => c
        | .error _ => client
      let headers1 :=
        if truthyOptStr client1.access_token then
          assocSet headers "Authorization" ("Bearer " ++ pyOptStr client1.access_token)
        else
          assocSet headers "Authorization" ((headers.lookup "Authorization").getD "")
      let auth2 := ((headers1.lookup "Authorization").getD "")
      ⟨.ok (env.resource 1), client1, url, 2, 1, [auth1, auth2]⟩
    else
      ⟨.ok response, client, url, 1, 0, [auth1]⟩

/-- Observable outcome of one resource operation: its value or raised
error, the client state afterwards, and the executor's attempt counts. -/
structure OpOutcome (α : Type) where
  result : Except ESignBaseSDKError α
  client : OAuth2Client
  httpAttempts : Nat
  connectCalls : Nat

/-- The `get_templates` operation.  Note the source raises without
passing a status code here, unlike every sibling operation. -/
def get_templates (env : Env) (client : OAuth2Client) : OpOutcome Json :=
  let r := api_request env client "get" "api/templates" true []
  match r.result with
  | .error e => ⟨.error e, r.client, r.httpAttempts, r.connectCalls⟩
  | .ok response =>
    if response.ok = false then
      ⟨.error (sdkError ("Failed to get templates: " ++ response.text)),
        r.client, r.httpAttempts, r.connectCalls⟩
    else
      ⟨.ok response.json, r.client, r.httpAttempts, r.connectCalls⟩

/-- The `get_template` operation. -/
def get_template (env : Env) (client : OAuth2Client) (template_id : String) :
    OpOutcome Json :=
  let r := api_request env client "get" ("api/template/" ++ template_id) true []
  match r.result with
  | .error e => ⟨.error e, r.client, r.httpAttempts, r.connectCalls⟩
  | .ok response =>
    if response.ok = false then
      ⟨.error ⟨"Failed to get template: " ++ response.text, some response.status_code⟩,
        r.client, r.httpAttempts, r.connectCalls⟩
    else
      ⟨.ok response.json, r.client, r.httpAttempts, r.connectCalls⟩

/-- The `get_documents` operation (query parameters `limit`/`offset` ride
in the request options and do not affect control flow). -/
def get_documents (env : Env) (client : OAuth2Client) (limit offset : Int) :
    OpOutcome Json :=
  let r := api_request env client "get" "api/documents" true []
  match r.result with
  | .error e => ⟨.error e, r.client, r.httpAttempts, r.connectCalls⟩
  | .ok response =>
    if response.ok = false then
      ⟨.error ⟨"Failed to get documents: " ++ response.text, some response.status_code⟩,
        r.client, r.httpAttempts, r.connectCalls⟩
    else
      ⟨.ok response.json, r.client, r.httpAttempts, r.connectCalls⟩

/-- The `get_document` operation. -/
def get_document (env : Env) (client : OAuth2Client) (document_id : String) :
    OpOutcome Json :=
  let r := api_request env client "get" ("api/document/" ++ document_id) true []
  match r.result with
  | .error e => ⟨.error e, r.client, r.httpAttempts, r.connectCalls⟩
  | .ok response =>
    if response.ok = false then
      ⟨.error ⟨"Failed to get document: " ++ response.text, some response.status_code⟩,
        r.client, r.httpAttempts, r.connectCalls⟩
    else
      ⟨.ok response.json, r.client, r.httpAttempts, r.connectCalls⟩

/-- A Python `datetime`: calendar fields plus an optional fixed UTC
offset in minutes standing for `tzinfo` (`timezone.utc` is offset 0; a
naive datetime has `tzinfo = none`). -/
structure PyDatetime where
  year : Nat
  month : Nat
  day : Nat
  hour : Nat
  minute : Nat
  second : Nat
  tzinfo : Option Int
  deriving DecidableEq

/-- Zero-padded two-digit rendering, as `strftime` pads fields. -/
def pad2 (n : Nat) : String :=
  if n < 10 then "0" ++ toString n else toString n

/-- Zero-padded four-digit rendering of the year field. -/
def pad4 (n : Nat) : String :=
  if n < 10 then "000" ++ toString n
  else if n < 100 then "00" ++ toString n
  else if n < 1000 then "0" ++ toString n
  else toString n

/-- Rendering of the `%z` directive for an aware datetime: sign followed
by two-digit hours and minutes of the UTC offset. -/
def formatUtcOffset (minutes : Int) : String :=
  let sign := if minutes < 0 then "-" else "+"
  let a := minutes.natAbs
  sign ++ pad2 (a / 60) ++ pad2 (a % 60)

/-- Python `strftime("%Y-%m-%dT%H:%M:%S%z")`: the `%z` part renders the
offset for an aware datetime and is empty for a naive one. -/
def strftime_iso (d : PyDatetime) : String :=
  pad4 d.year ++ "-" ++ pad2 d.month ++ "-" ++ pad2 d.day ++ "T" ++
    pad2 d.hour ++ ":" ++ pad2 d.minute ++ ":" ++ pad2 d.second ++
    (match d.tzinfo with
     | none => ""
     | some off => formatUtcOffset off)

/-- JSON rendering of a `Recipient`, as `create_document` lays it out. -/
def recipientJson (r : Recipient) : Json :=
  .obj [("email", .str r.email), ("first_name", .str r.first_name),
    ("last_name", .str r.last_name), ("role_name", .str r.role_name),
    ("locale", .str r.locale)]

/-- The request body `create_document` builds (source lines 182 to 204):
base fields, then the metadata map when truthy, then the expiration date;
a naive expiration is first made aware by attaching the UTC timezone,
then serialized with `strftime("%Y-%m-%dT%H:%M:%S%z")`. -/
def create_document_request_data (template_id document_name : String)
    (recipients : List Recipient)
    (user_defined_metadata : Option (List (String × Json)))
    (expiration_date : Option PyDatetime) : Json :=
  let base : List (String × Json) :=
    [("name", .str document_name), ("template_id", .str template_id),
     ("recipients", .arr (recipients.map recipientJson))]
  let base :=
    match user_defined_metadata with
    | some m => if m.isEmpty = false then assocSet base "user_defined_metadata" (.obj m) else base
    | none => base
  match expiration_date with
  | some d =>
    let d2 := if d.tzinfo.isNone then { d with tzinfo := some 0 } else d
    .obj (assocSet base "expiration_date" (.str (strftime_iso d2)))
  | none => .obj base

/-- The `create_document` operation: builds the request body, posts it
with a JSON content-type header, and decodes the created document. -/
def create_document (env : Env) (client : OAuth2Client)
    (template_id document_name : String) (recipients : List Recipient)
    (user_defined_metadata : Option (List (String × Json)))
    (expiration_date : Option PyDatetime) : OpOutcome Json :=
  let request_data := create_document_request_data template_id document_name
    recipients user_defined_metadata expiration_date
  let r := api_request env client "post" "api/document" true
    [("Content-Type", "application/json")]
  match r.result with
  | .error e => ⟨.error e, r.client, r.httpAttempts, r.connectCalls⟩
  | .ok response =>
    if response.ok = false then
      ⟨.error ⟨"Failed to create document: " ++ response.text, some response.status_code⟩,
        r.client, r.httpAttempts, r.connectCalls⟩
    else
      ⟨.ok response.json, r.client, r.httpAttempts, r.connectCalls⟩

/-- The `download_document` operation: on a success response it yields the
response's byte chunks, on a non-success response it raises before
yielding anything. -/
def download_document (env : Env) (client : OAuth2Client) (document_id : String) :
    OpOutcome (List String) :=
  let r := api_request env client "get" ("api/document/download/" ++ document_id) true []
  match r.result with
  | .error e => ⟨.error e, r.client, r.httpAttempts, r.connectCalls⟩
  | .ok response =>
    if response.ok = false then
      ⟨.error ⟨"Failed to download document: " ++ response.text, some response.status_code⟩,
        r.client, r.httpAttempts, r.connectCalls⟩
    else
      ⟨.ok response.content_chunks, r.client, r.httpAttempts, r.connectCalls⟩

/-- The `delete_document` operation. -/
def delete_document (env : Env) (client : OAuth2Client) (document_id : String) :
    OpOutcome Unit :=
  let r := api_request env client "delete" ("api/document/" ++ document_id) true []
  match r.result with
  | .error e => ⟨.error e, r.client, r.httpAttempts, r.connectCalls⟩
  | .ok response =>
    if response.ok = false then
      ⟨.error ⟨"Failed to delete document: " ++ response.text, some response.status_code⟩,
        r.client, r.httpAttempts, r.connectCalls⟩
    else
      ⟨.ok (), r.client, r.httpAttempts, r.connectCalls⟩

/-- The `get_credits` operation. -/
def get_credits (env : Env) (client : OAuth2Client) : OpOutcome Json :=
  let r := api_request env client "get" "api/credits" true []
  match r.result with
  | .error e => ⟨.error e, r.client, r.httpAttempts, r.connectCalls⟩
  | .ok response =>
    if response.ok = false then
      ⟨.error ⟨"Failed to get credits: " ++ response.text, some response.status_code⟩,
        r.client, r.httpAttempts, r.connectCalls⟩
    else
      ⟨.ok response.json, r.client, r.httpAttempts, r.connectCalls⟩

/-! Helper lemmas shared by several verification theorems. -/

/-- Looking up a key right after a Python-style dict assignment of that
key yields the assigned value. -/
theorem lookup_assocSet_self {α : Type} (l : List (String × α)) (k : String) (v : α) :
    (assocSet l k v).lookup k = some v := by
  unfold assocSet
  split
  case isTrue hmem =>
    induction l with
    | nil => simp [List.lookup] at hmem
    | cons p t ih =>
      obtain ⟨a, b⟩ := p
      rw [List.map_cons]
      by_cases hk : a = k
      · subst hk
        rw [if_pos rfl]
        simp [List.lookup]
      · rw [if_neg (show ¬ ((a, b).1 = k) from hk)]
        have hne : (k == a) = false := beq_eq_false_iff_ne.mpr (fun h => hk h.symm)
        have hmem2 : (t.lookup k).isSome = true := by
          simpa [List.lookup, hne] using hmem
        simpa [List.lookup, hne] using ih hmem2
  case isFalse hmem =>
    induction l with
    | nil => simp [List.lookup]
    | cons p t ih =>
      obtain ⟨a, b⟩ := p
      have hne : (k == a) = false := by
        cases hb : (k == a) with
        | false => rfl
        | true => exact absurd (by simp [List.lookup, hb]) hmem
      have hmem2 : ¬ (t.lookup k).isSome = true := by
        intro h
        exact hmem (by simp [List.lookup, hne, h])
      simpa [List.lookup, hne] using ih hmem2

/-- Full characterization of `validate`: it succeeds exactly when the
scope list, the client id and the client secret are non-empty and, for
the authorization-code grant, both username and password are truthy. -/
theorem validate_ok_iff (c : OAuth2Client) :
    validate c = .ok () ↔
      (c.scope ≠ [] ∧ c.id ≠ "" ∧ c.secret ≠ "" ∧
        (c.grant_type = GrantType.authorization_code →
          truthyOptStr c.user_name = true ∧ truthyOptStr c.password = true)) := by
  unfold validate
  split_ifs with h1 h2 h3 h4
  · simp only [List.isEmpty_iff] at h1
    simp [h1]
  · simp only [String.isEmpty_iff] at h2
    simp [h2]
  · simp only [String.isEmpty_iff] at h3
    simp [h3]
  · obtain ⟨hg, hor⟩ := h4
    constructor
    · intro h
      cases h
    · rintro ⟨-, -, -, himp⟩
      obtain ⟨hu, hp⟩ := himp hg
      rcases hor with h | h
      · rw [hu] at h
        cases h
      · rw [hp] at h
        cases h
  · simp only [List.isEmpty_iff] at h1
    simp only [String.isEmpty_iff] at h2 h3
    push_neg at h4
    constructor
    · intro _
      refine ⟨h1, h2, h3, fun hg => ?_⟩
      obtain ⟨hu, hp⟩ := h4 hg
      exact ⟨Bool.ne_false_iff.mp hu, Bool.ne_false_iff.mp hp⟩
    · intro _
      rfl

/-- When validation succeeds, `connect` reduces to the token-exchange
step: failure with body text and status code on a non-ok response, and
storing the body's `access_token` field on an ok response. -/
theorem connect_eq_of_validate_ok (tokenResp : Response) (c : OAuth2Client)
    (hvalid : validate c = .ok ()) :
    connect tokenResp c =
      (if tokenResp.ok = false then
        .error ⟨"Failed to connect to ESignBase API: " ++ tokenResp.text,
          some tokenResp.status_code⟩
      else
        .ok { c with access_token := jsonGetStr tokenResp.json "access_token" }) := by
  have hchar := (validate_ok_iff c).mp hvalid
  have hcond : ¬ (c.grant_type = GrantType.authorization_code ∧
      (truthyOptStr c.user_name = false ∨ truthyOptStr c.password = false)) := by
    rintro ⟨hg, hor⟩
    obtain ⟨-, -, -, himp⟩ := hchar
    obtain ⟨hu, hp⟩ := himp hg
    rcases hor with h | h
    · rw [hu] at h
      cases h
    · rw [hp] at h
      cases h
  unfold connect
  rw [hvalid]
  simp [hcond]

/-- A call through the executor with no cached access token fails with
the not-connected error before issuing any HTTP attempt. -/
theorem api_request_of_not_connected (env : Env) (client : OAuth2Client)
    (method path : String) (retry : Bool) (headers0 : List (String × String))
    (h : client.is_connected = false) :
    api_request env client method path retry headers0 =
      ⟨.error (sdkError "OAuth2Client is not connected. Call connect() first."),
        client, BASE_URL ++ lstripSlashes path, 0, 0, []⟩ := by
  unfold api_request ensure_connected
  simp [h]

/-! Claim C4 — validator characterization. -/

/-- A client whose only defect is an absent password under the
authorization-code grant: scopes, id, secret and username all present. -/
def c4client : OAuth2Client :=
  ⟨"id", "secret", GrantType.authorization_code, some "user", none, none, [Scope.read]⟩

/-- Claim C4, counterexample: the claim says `validate` raises only when
scopes, clientId or clientSecret are empty or (for the authorization-code
grant) the username is empty or absent, and returns normally for every
other credential.  This credential has non-empty scopes, id, secret and a
truthy username, yet `validate` raises, because the source also requires
a password for the authorization-code grant. -/
theorem validate_claim_counterexample :
    c4client.scope ≠ [] ∧ c4client.id ≠ "" ∧ c4client.secret ≠ "" ∧
    truthyOptStr c4client.user_name = true ∧
    c4client.grant_type = GrantType.authorization_code ∧
    validate c4client =
      .error (sdkError "Username and password are required for authorization code grant type") :=
  ⟨by decide, by decide, by decide, by decide, rfl, rfl⟩

/-- Claim C4, amended: `validate` returns normally exactly when the scope
list, the client id and the client secret are non-empty and, when the
grant type is AuthorizationCode, both username and password are non-empty
and present; in every other case it raises `ESignBaseSDKError`.  The
check is pure: it is a function of the credential alone and performs no
mutation (in this embedding it does not even return a client). -/
theorem validate_ok_characterization (c : OAuth2Client) :
    (validate c = .ok () ↔
      (c.scope ≠ [] ∧ c.id ≠ "" ∧ c.secret ≠ "" ∧
        (c.grant_type = GrantType.authorization_code →
          truthyOptStr c.user_name = true ∧ truthyOptStr c.password = true))) ∧
    (validate c ≠ .ok () → ∃ e, validate c = .error e) := by
  refine ⟨validate_ok_iff c, fun h => ?_⟩
  cases hv : validate c with
  | error e => exact ⟨e, rfl⟩
  | ok u => exact absurd (by rw [hv]) h

/-- Witness for the amended claim C4 at a concrete input: for the
credential missing only its password, validation does not succeed — the
characterization's right-hand side fails on the password conjunct — and
the failure is an `ESignBaseSDKError`. -/
theorem validate_ok_characterization_witness :
    validate c4client ≠ .ok () ∧ (∃ e, validate c4client = .error e) :=
  ⟨(fun h => nomatch h),
    (validate_ok_characterization c4client).2 (fun h => nomatch h)⟩

/-! Claim C5 — connect failure on a non-success token response. -/

/-- Claim C5: for a credential passing validation, a non-success token
endpoint response makes `connect` raise `ESignBaseSDKError` carrying the
response body text and the status code.  The raised path returns no
updated client: the caller's credential, and in particular its
`access_token`, is exactly what it was before the call (the source's only
assignment to `access_token` sits after the raise). -/
theorem connect_http_failure_raises (tokenResp : Response) (c : OAuth2Client)
    (hvalid : validate c = .ok ()) (hbad : tokenResp.ok = false) :
    connect tokenResp c =
      .error ⟨"Failed to connect to ESignBase API: " ++ tokenResp.text,
        some tokenResp.status_code⟩ := by
  rw [connect_eq_of_validate_ok tokenResp c hvalid, if_pos hbad]

/-- A well-formed client-credentials credential with no cached token. -/
def c5client : OAuth2Client :=
  ⟨"id", "secret", GrantType.client_credentials, none, none, none, [Scope.all]⟩

/-- A token endpoint answer with HTTP status 400 and body text "bad". -/
def c5resp : Response := ⟨400, "bad", Json.null, []⟩

/-- Witness for claim C5 at a concrete input: the credential validates,
the response is non-ok with status 400, and `connect` raises with the
body text and status code while the credential stays disconnected. -/
theorem connect_http_failure_raises_witness :
    validate c5client = .ok () ∧ c5resp.ok = false ∧
    connect c5resp c5client =
      .error ⟨"Failed to connect to ESignBase API: bad", some 400⟩ :=
  ⟨rfl, rfl, connect_http_failure_raises c5resp c5client rfl rfl⟩

/-! Claim C6 — connect stores the token from a success response. -/

/-- Claim C6: for a credential passing validation and a success token
response, `connect` returns the credential updated with the response
body's `access_token` field — the field's string value when present, and
an unset token when the field is absent, without raising. -/
theorem connect_success_stores_token (tokenResp : Response) (c : OAuth2Client)
    (hvalid : validate c = .ok ()) (hok : tokenResp.ok = true) :
    connect tokenResp c =
      .ok { c with access_token := jsonGetStr tokenResp.json "access_token" } := by
  rw [connect_eq_of_validate_ok tokenResp c hvalid, if_neg (by rw [hok]; exact fun h => by cases h)]

/-- A well-formed client-credentials credential with no cached token. -/
def c6client : OAuth2Client :=
  ⟨"id", "secret", GrantType.client_credentials, none, none, none, [Scope.all]⟩

/-- A success token response whose body carries access_token "abc123". -/
def c6resp : Response := ⟨200, "", Json.obj [("access_token", Json.str "abc123")], []⟩

/-- A success token response whose body omits the access_token field. -/
def c6respNoToken : Response := ⟨200, "", Json.obj [("expires_in", Json.num 3600)], []⟩

/-- Witness for claim C6 at concrete inputs: a body carrying
access_token "abc123" stores exactly that token, and a body omitting the
field stores an unset token without an error. -/
theorem connect_success_stores_token_witness :
    validate c6client = .ok () ∧ c6resp.ok = true ∧ c6respNoToken.ok = true ∧
    connect c6resp c6client =
      .ok ⟨"id", "secret", GrantType.client_credentials, none, none, some "abc123", [Scope.all]⟩ ∧
    connect c6respNoToken c6client =
      .ok ⟨"id", "secret", GrantType.client_credentials, none, none, none, [Scope.all]⟩ :=
  ⟨rfl, rfl, rfl, connect_success_stores_token c6resp c6client rfl rfl,
    connect_success_stores_token c6respNoToken c6client rfl rfl⟩

/-! Claim C1 — the 401 reauthenticate-and-retry flow. -/

/-- Claim C1: for a connected credential, when the first HTTP attempt of
a call answers exactly 401, the executor performs exactly two HTTP
attempts, invokes `connect` exactly once, and returns the second attempt's
response whatever its status; no further reauthentication or retry
happens for that call. -/
theorem api_request_401_retries_once (env : Env) (client : OAuth2Client)
    (method path : String) (headers0 : List (String × String))
    (hconn : client.is_connected = true)
    (h401 : (env.resource 0).status_code = 401) :
    (api_request env client method path true headers0).httpAttempts = 2 ∧
    (api_request env client method path true headers0).connectCalls = 1 ∧
    (api_request env client method path true headers0).result = .ok (env.resource 1) := by
  unfold api_request ensure_connected
  simp [hconn, h401]

/-- Responses driving the C1 witness: a 401, then a 200 carrying body
left brace "ok": true right brace, and an irrelevant token response. -/
def c1env : Env :=
  ⟨⟨200, "", Json.obj [("access_token", Json.str "newtoken")], []⟩,
    fun n => if n = 0 then ⟨401, "unauthorized", Json.null, []⟩
      else ⟨200, "", Json.obj [("ok", Json.bool true)], []⟩⟩

/-- A connected client-credentials credential holding token "oldtoken". -/
def c1client : OAuth2Client :=
  ⟨"id", "secret", GrantType.client_credentials, none, none, some "oldtoken", [Scope.all]⟩

/-- Witness for claim C1 at a concrete input: the credential is
connected, the first response is a 401, and the call performs two HTTP
attempts, one `connect`, returning the second (200) response. -/
theorem api_request_401_retries_once_witness :
    c1client.is_connected = true ∧ (c1env.resource 0).status_code = 401 ∧
    ((api_request c1env c1client "get" "api/something" true []).httpAttempts = 2 ∧
     (api_request c1env c1client "get" "api/something" true []).connectCalls = 1 ∧
     (api_request c1env c1client "get" "api/something" true []).result = .ok (c1env.resource 1)) :=
  ⟨rfl, rfl, api_request_401_retries_once c1env c1client "get" "api/something" [] rfl rfl⟩

/-! Claim C2 — resource operations fail fast when no token is cached. -/

/-- Claim C2: with an absent access token, every resource operation fails
with the not-connected error, and does so before any HTTP attempt is
issued (zero attempts, zero `connect` calls). -/
theorem resource_ops_fail_when_token_absent (env : Env) (client : OAuth2Client)
    (tid did : String) (limit offset : Int) (recipients : List Recipient)
    (meta : Option (List (String × Json))) (exp : Option PyDatetime)
    (h : client.access_token = none) :
    ((get_templates env client).result =
        .error (sdkError "OAuth2Client is not connected. Call connect() first.") ∧
      (get_templates env client).httpAttempts = 0) ∧
    ((get_template env client tid).result =
        .error (sdkError "OAuth2Client is not connected. Call connect() first.") ∧
      (get_template env client tid).httpAttempts = 0) ∧
    ((get_documents env client limit offset).result =
        .error (sdkError "OAuth2Client is not connected. Call connect() first.") ∧
      (get_documents env client limit offset).httpAttempts = 0) ∧
    ((get_document env client did).result =
        .error (sdkError "OAuth2Client is not connected. Call connect() first.") ∧
      (get_document env client did).httpAttempts = 0) ∧
    ((create_document env client tid "doc" recipients meta exp).result =
        .error (sdkError "OAuth2Client is not connected. Call connect() first.") ∧
      (create_document env client tid "doc" recipients meta exp).httpAttempts = 0) ∧
    ((download_document env client did).result =
        .error (sdkError "OAuth2Client is not connected. Call connect() first.") ∧
      (download_document env client did).httpAttempts = 0) ∧
    ((delete_document env client did).result =
        .error (sdkError "OAuth2Client is not connected. Call connect() first.") ∧
      (delete_document env client did).httpAttempts = 0) ∧
    ((get_credits env client).result =
        .error (sdkError "OAuth2Client is not connected. Call connect() first.") ∧
      (get_credits env client).httpAttempts = 0) := by
  have hc : client.is_connected = false := by
    simp [OAuth2Client.is_connected, truthyOptStr, h]
  refine ⟨?_, ?_, ?_, ?_, ?_, ?_, ?_, ?_⟩ <;>
    simp [get_templates, get_template, get_documents, get_document, create_document,
      download_document, delete_document, get_credits,
      api_request_of_not_connected _ _ _ _ _ _ hc]

/-- An environment for the C2 witness (never reached by the call). -/
def c2env : Env := ⟨⟨200, "", Json.null, []⟩, fun _ => ⟨200, "", Json.null, []⟩⟩

/-- A credential that never connected: its access token is absent. -/
def c2client : OAuth2Client :=
  ⟨"id", "secret", GrantType.client_credentials, none, none, none, [Scope.all]⟩

/-- Witness for claim C2 at a concrete input, checking the first and last
conjuncts of the applied theorem: with an absent token, `get_templates`
and `get_credits` fail with the not-connected error and zero attempts. -/
theorem resource_ops_fail_when_token_absent_witness :
    c2client.access_token = none ∧
    (get_templates c2env c2client).result =
      .error (sdkError "OAuth2Client is not connected. Call connect() first.") ∧
    (get_templates c2env c2client).httpAttempts = 0 ∧
    (get_credits c2env c2client).result =
      .error (sdkError "OAuth2Client is not connected. Call connect() first.") ∧
    (get_credits c2env c2client).httpAttempts = 0 := by
  have h := resource_ops_fail_when_token_absent c2env c2client "t" "d" 1 0 [] none none rfl
  exact ⟨rfl, h.1.1, h.1.2, h.2.2.2.2.2.2.2.1, h.2.2.2.2.2.2.2.2⟩

/-! Claim C3 — a failing reauthentication is swallowed. -/

/-- Claim C3: when the first attempt answers 401 and the nested
reauthentication itself fails, that failure is swallowed — the call still
retries exactly once, sending the bearer header built from whatever
access token is then cached (the old one, since a failing `connect`
updates nothing), and the caller observes only the retried call's
outcome. -/
theorem api_request_swallows_reconnect_failure (env : Env) (client : OAuth2Client)
    (method path : String) (headers0 : List (String × String)) (e : ESignBaseSDKError)
    (hconn : client.is_connected = true)
    (h401 : (env.resource 0).status_code = 401)
    (hfail : connect env.tokenResponse client = .error e) :
    (api_request env client method path true headers0).result = .ok (env.resource 1) ∧
    (api_request env client method path true headers0).httpAttempts = 2 ∧
    (api_request env client method path true headers0).client = client ∧
    (api_request env client method path true headers0).authHeaders.getLast? =
      some ("Bearer " ++ pyOptStr client.access_token) := by
  have htok : truthyOptStr client.access_token = true := hconn
  unfold api_request ensure_connected
  simp [hconn, h401, hfail, htok, lookup_assocSet_self]

/-- An environment for the C3 witness: a 401 then a 200, with a token
endpoint that answers 500 so the nested reauthentication fails. -/
def c3env : Env :=
  ⟨⟨500, "token service down", Json.null, []⟩,
    fun n => if n = 0 then ⟨401, "unauthorized", Json.null, []⟩
      else ⟨200, "", Json.obj [("ok", Json.bool true)], []⟩⟩

/-- A connected client-credentials credential holding token "oldtoken". -/
def c3client : OAuth2Client :=
  ⟨"id", "secret", GrantType.client_credentials, none, none, some "oldtoken", [Scope.all]⟩

/-- Witness for claim C3 at a concrete input: the nested `connect` fails
with the 500 from the token endpoint, yet the call returns the second
response after two attempts, the credential is unchanged and the retry
carried the old bearer token. -/
theorem api_request_swallows_reconnect_failure_witness :
    c3client.is_connected = true ∧ (c3env.resource 0).status_code = 401 ∧
    connect c3env.tokenResponse c3client =
      .error ⟨"Failed to connect to ESignBase API: token service down", some 500⟩ ∧
    ((api_request c3env c3client "get" "api/something" true []).result = .ok (c3env.resource 1) ∧
     (api_request c3env c3client "get" "api/something" true []).httpAttempts = 2 ∧
     (api_request c3env c3client "get" "api/something" true []).client = c3client ∧
     (api_request c3env c3client "get" "api/something" true []).authHeaders.getLast? =
       some ("Bearer " ++ pyOptStr c3client.access_token)) :=
  ⟨rfl, rfl, rfl,
    api_request_swallows_reconnect_failure c3env c3client "get" "api/something" []
      ⟨"Failed to connect to ESignBase API: token service down", some 500⟩ rfl rfl rfl⟩

/-! Claim C7 — error payload of failed resource operations. -/

/-- A connected client-credentials credential used for the C7 check. -/
def c7client : OAuth2Client :=
  ⟨"id", "secret", GrantType.client_credentials, none, none, some "tok", [Scope.all]⟩

/-- An environment whose resource endpoint answers 500 with body text
"server exploded" on every attempt. -/
def c7env : Env :=
  ⟨⟨200, "", Json.null, []⟩, fun _ => ⟨500, "server exploded", Json.null, []⟩⟩

/-- Claim C7, evaluated at the failing input: on a 500 response,
`get_templates` raises an error that carries the body text but NO status
code (the source calls the exception constructor without `status_code`
there), while its sibling `get_template` raises one carrying both the
body text and the status code 500, as the claim requires of every
operation. -/
theorem get_templates_error_lacks_status_code :
    (get_templates c7env c7client).result =
      .error ⟨"Failed to get templates: server exploded", none⟩ ∧
    (get_template c7env c7client "t1").result =
      .error ⟨"Failed to get template: server exploded", some 500⟩ :=
  ⟨rfl, rfl⟩

/-! Claim C8 — naive expiration instants serialize with a +0000 suffix. -/

/-- Claim C8: a `create_document` expiration instant lacking a timezone
is interpreted as UTC and lands in the request body serialized as
`YYYY-MM-DDTHH:MM:SS+0000` — zero-padded calendar fields followed by the
UTC offset suffix "+0000". -/
theorem create_document_naive_expiration_utc (template_id document_name : String)
    (recipients : List Recipient) (meta : Option (List (String × Json)))
    (d : PyDatetime) (h : d.tzinfo = none) :
    Json.get (create_document_request_data template_id document_name recipients meta (some d))
        "expiration_date" =
      some (.str (strftime_iso { d with tzinfo := some 0 })) ∧
    strftime_iso { d with tzinfo := some 0 } =
      (pad4 d.year ++ "-" ++ pad2 d.month ++ "-" ++ pad2 d.day ++ "T" ++
        pad2 d.hour ++ ":" ++ pad2 d.minute ++ ":" ++ pad2 d.second) ++ "+0000" := by
  constructor
  · unfold create_document_request_data
    simp [h, Json.get, lookup_assocSet_self]
  · have hoff : formatUtcOffset 0 = "+0000" := rfl
    simp [strftime_iso, hoff, String.append_assoc]

/-- Witness for claim C8 at a concrete input: the naive instant
2025-01-01 12:00:00 serializes into the request body as
"2025-01-01T12:00:00+0000". -/
theorem create_document_naive_expiration_utc_witness :
    (⟨2025, 1, 1, 12, 0, 0, none⟩ : PyDatetime).tzinfo = none ∧
    Json.get (create_document_request_data "tpl" "Doc" [] none
        (some ⟨2025, 1, 1, 12, 0, 0, none⟩)) "expiration_date" =
      some (.str "2025-01-01T12:00:00+0000") ∧
    strftime_iso ⟨2025, 1, 1, 12, 0, 0, some 0⟩ = "2025-01-01T12:00:00" ++ "+0000" :=
  ⟨rfl,
    (create_document_naive_expiration_utc "tpl" "Doc" [] none ⟨2025, 1, 1, 12, 0, 0, none⟩ rfl).1,
    (create_document_naive_expiration_utc "tpl" "Doc" [] none ⟨2025, 1, 1, 12, 0, 0, none⟩ rfl).2⟩

/-! Claim C9 — downloads stream the response's chunks or raise. -/

/-- For a connected credential the executor always returns a response:
the retried one when the first attempt answered 401, the first one
otherwise. -/
theorem api_request_connected_result (env : Env) (client : OAuth2Client)
    (method path : String) (headers0 : List (String × String))
    (hconn : client.is_connected = true) :
    (api_request env client method path true headers0).result =
      .ok (if (env.resource 0).status_code = 401 then env.resource 1 else env.resource 0) := by
  unfold api_request ensure_connected
  by_cases h : (env.resource 0).status_code = 401 <;> simp [hconn, h]

/-- Claim C9: for a connected credential, `download_document` returns,
against a success (post-retry) response, exactly that response's byte
chunks — so their concatenation equals the concatenation of the
response's chunks — and against a non-success response it raises the
download error carrying body text and status code, yielding no chunk. -/
theorem download_document_spec (env : Env) (client : OAuth2Client) (docid : String)
    (hconn : client.is_connected = true) :
    ∃ resp : Response,
      (api_request env client "get" ("api/document/download/" ++ docid) true []).result =
        .ok resp ∧
      (resp.ok = true →
        (download_document env client docid).result = .ok resp.content_chunks) ∧
      (∀ chunks, (download_document env client docid).result = .ok chunks →
        String.join chunks = String.join resp.content_chunks) ∧
      (resp.ok = false →
        (download_document env client docid).result =
          .error ⟨"Failed to download document: " ++ resp.text, some resp.status_code⟩) := by
  have hres := api_request_connected_result env client "get"
    ("api/document/download/" ++ docid) [] hconn
  refine ⟨_, hres, ?_⟩
  have hdl : (download_document env client docid).result =
      (if (if (env.resource 0).status_code = 401 then env.resource 1
          else env.resource 0).ok = false then
        .error ⟨"Failed to download document: " ++
          (if (env.resource 0).status_code = 401 then env.resource 1
            else env.resource 0).text,
          some (if (env.resource 0).status_code = 401 then env.resource 1
            else env.resource 0).status_code⟩
      else
        .ok (if (env.resource 0).status_code = 401 then env.resource 1
          else env.resource 0).content_chunks) := by
    by_cases h401 : (env.resource 0).status_code = 401 <;>
      simp [download_document, api_request, ensure_connected, hconn, h401] <;>
      split <;> rfl
  refine ⟨fun hok => ?_, fun chunks hch => ?_, fun hbad => ?_⟩
  · rw [hdl, if_neg (by rw [hok]; exact fun hc => by cases hc)]
  · rw [hdl] at hch
    by_cases hok : (if (env.resource 0).status_code = 401 then env.resource 1
        else env.resource 0).ok = false
    · rw [if_pos hok] at hch
      cases hch
    · rw [if_neg hok] at hch
      cases hch
      rfl
  · rw [hdl, if_pos hbad]

/-- An environment for the C9 witness: a single 200 response streaming
the chunks "part1" and "part2". -/
def c9env : Env :=
  ⟨⟨200, "", Json.null, []⟩, fun _ => ⟨200, "", Json.null, ["part1", "part2"]⟩⟩

/-- A connected client-credentials credential for the C9 witness. -/
def c9client : OAuth2Client :=
  ⟨"id", "secret", GrantType.client_credentials, none, none, some "tok", [Scope.all]⟩

/-- Witness for claim C9 at a concrete input: the download yields
["part1", "part2"], whose concatenation is "part1part2". -/
theorem download_document_spec_witness :
    c9client.is_connected = true ∧
    (∃ resp : Response,
      (api_request c9env c9client "get" ("api/document/download/" ++ "doc1") true []).result =
        .ok resp ∧
      (resp.ok = true →
        (download_document c9env c9client "doc1").result = .ok resp.content_chunks) ∧
      (∀ chunks, (download_document c9env c9client "doc1").result = .ok chunks →
        String.join chunks = String.join resp.content_chunks) ∧
      (resp.ok = false →
        (download_document c9env c9client "doc1").result =
          .error ⟨"Failed to download document: " ++ resp.text, some resp.status_code⟩)) ∧
    (download_document c9env c9client "doc1").result = .ok ["part1", "part2"] ∧
    String.join ["part1", "part2"] = "part1part2" :=
  ⟨rfl, download_document_spec c9env c9client "doc1" rfl, rfl, rfl⟩

/-! Claim C10 — an apparently successful connect can leave the
credential disconnected. -/

/-- Claim C10: when the token endpoint answers with success but its body
omits `access_token` or carries an empty string there, `connect` returns
normally, yet the updated credential is not connected, so a subsequent
resource operation (here `get_templates`, and the executor underlying
every operation) fails with the not-connected error before any HTTP
attempt. -/
theorem connect_empty_token_leaves_disconnected (tokenResp : Response)
    (c : OAuth2Client) (env : Env)
    (hvalid : validate c = .ok ()) (hok : tokenResp.ok = true)
    (htok : jsonGetStr tokenResp.json "access_token" = none ∨
      jsonGetStr tokenResp.json "access_token" = some "") :
    connect tokenResp c =
      .ok { c with access_token := jsonGetStr tokenResp.json "access_token" } ∧
    OAuth2Client.is_connected
      { c with access_token := jsonGetStr tokenResp.json "access_token" } = false ∧
    (get_templates env
        { c with access_token := jsonGetStr tokenResp.json "access_token" }).result =
      .error (sdkError "OAuth2Client is not connected. Call connect() first.") ∧
    (get_templates env
        { c with access_token := jsonGetStr tokenResp.json "access_token" }).httpAttempts = 0 := by
  have hnotconn : OAuth2Client.is_connected
      { c with access_token := jsonGetStr tokenResp.json "access_token" } = false := by
    rcases htok with h | h
    · simp [OAuth2Client.is_connected, truthyOptStr, h]
    · simp only [OAuth2Client.is_connected, truthyOptStr, h]
      decide
  refine ⟨?_, hnotconn, ?_, ?_⟩
  · rw [connect_eq_of_validate_ok tokenResp c hvalid,
      if_neg (by rw [hok]; exact fun hc => by cases hc)]
  · simp [get_templates, api_request_of_not_connected _ _ _ _ _ _ hnotconn]
  · simp [get_templates, api_request_of_not_connected _ _ _ _ _ _ hnotconn]

/-- A token response that is a 200 but whose body has no access_token. -/
def c10resp : Response := ⟨200, "", Json.obj [("expires_in", Json.num 3600)], []⟩

/-- A well-formed credential with no cached token for the C10 witness. -/
def c10client : OAuth2Client :=
  ⟨"id", "secret", GrantType.client_credentials, none, none, none, [Scope.all]⟩

/-- An environment for the C10 witness (never reached by the call). -/
def c10env : Env := ⟨c10resp, fun _ => ⟨200, "", Json.null, []⟩⟩

/-- Witness for claim C10 at a concrete input: the 200 token response
with no access_token field makes `connect` return normally while the
credential stays disconnected and `get_templates` then fails fast. -/
theorem connect_empty_token_leaves_disconnected_witness :
    validate c10client = .ok () ∧ c10resp.ok = true ∧
    jsonGetStr c10resp.json "access_token" = none ∧
    (connect c10resp c10client =
      .ok { c10client with access_token := jsonGetStr c10resp.json "access_token" } ∧
    OAuth2Client.is_connected
      { c10client with access_token := jsonGetStr c10resp.json "access_token" } = false ∧
    (get_templates c10env
        { c10client with access_token := jsonGetStr c10resp.json "access_token" }).result =
      .error (sdkError "OAuth2Client is not connected. Call connect() first.") ∧
    (get_templates c10env
        { c10client with access_token := jsonGetStr c10resp.json "access_token" }).httpAttempts
      = 0) :=
  ⟨rfl, rfl, rfl,
    connect_empty_token_leaves_disconnected c10resp c10client c10env rfl rfl (Or.inl rfl)⟩

end ESignBase
